import Mathlib

/-!
Shallow embedding of the go-astitello drone client (package `astitello`),
covering the telemetry parser (`newState`, `readState`), the video
reassembly loop (`readVideo`), the command sequencer (`priorityCmd`,
`sendCmd`) and the start/close lifecycle (`Start`, `Close`).

Conventions of the embedding:
* Go strings are handled as `List Char`; byte buffers as `List Nat`.
* `float64` values produced by `fmt.Sscanf` verbs `%f` are modelled as
  exact rationals (`ℚ`) of the decimal text scanned.
* `fmt.Sscanf` is embedded as a sequential scanner over the fixed format
  string used by `newState`: literal characters must match exactly, the
  numeric verbs `%d` and `%f` skip leading spaces and scan sign, digits,
  optional fraction and optional exponent, as Go's scanner does.
* The concurrent loops are embedded as one-iteration body functions plus
  folds over a list of incoming datagrams; the environment of a call
  (socket present, context cancelled, write outcome, wait outcome) is an
  explicit record of oracles.
-/

namespace Astitello

/-! ## Telemetry parsing: `newState` (state.go) -/

/-- `State` record from state.go: the drone's telemetry snapshot. -/
structure Acceleration where
  X : ℚ
  Y : ℚ
  Z : ℚ
deriving DecidableEq, Repr

/-- `Attitude` record from state.go. -/
structure Attitude where
  Pitch : Int
  Roll : Int
  Yaw : Int
deriving DecidableEq, Repr

/-- `Speed` record from state.go. -/
structure Speed where
  X : Int
  Y : Int
  Z : Int
deriving DecidableEq, Repr

/-- `State` record from state.go. -/
structure State where
  Acceleration : Acceleration
  Attitude : Attitude
  Barometer : ℚ
  Battery : Int
  FlightDistance : Int
  FlightTime : Int
  Height : Int
  HighestTemperature : Int
  LowestTemperature : Int
  Speed : Speed
deriving DecidableEq, Repr

/-- Take the longest prefix of decimal digits. -/
def takeDigits : List Char → List Char × List Char
  | [] => ([], [])
  | c :: cs =>
    if c.isDigit then
      let p := takeDigits cs
      (c :: p.1, p.2)
    else ([], c :: cs)

/-- Numeric value of a digit string. -/
def digitsVal (l : List Char) : Nat :=
  l.foldl (fun a c => a * 10 + (c.toNat - 48)) 0

/-- Skip leading whitespace, as Go's scanner does before a numeric verb. -/
def skipSpaces (l : List Char) : List Char :=
  l.dropWhile Char.isWhitespace

/-- Consume an optional sign; returns (negative, rest). -/
def scanSign : List Char → Bool × List Char
  | '-' :: cs => (true, cs)
  | '+' :: cs => (false, cs)
  | cs => (false, cs)

/-- Embedding of the `%d` verb of `fmt.Sscanf`: optional sign then at
least one decimal digit. -/
def scanInt (l : List Char) : Option (Int × List Char) :=
  let s := skipSpaces l
  let sg := scanSign s
  let d := takeDigits sg.2
  if d.1.isEmpty then none
  else some (if sg.1 then -(digitsVal d.1 : Int) else (digitsVal d.1 : Int), d.2)

/-- Mantissa value: integer digits plus fractional digits, as the exact
rational of the decimal text (built with core `Rat` primitives). -/
def mantissaVal (ds fs : List Char) : ℚ :=
  mkRat (Int.ofNat (digitsVal ds * 10 ^ fs.length + digitsVal fs)) (10 ^ fs.length)

/-- Apply a decimal exponent `e` (negative when `neg`) to a rational. -/
def applyExp (v : ℚ) (neg : Bool) (e : Nat) : ℚ :=
  if neg then Rat.mul v (mkRat 1 (10 ^ e))
  else Rat.mul v (mkRat (Int.ofNat (10 ^ e)) 1)

/-- Scan the exponent part after an `e`/`E`: optional sign then at least
one digit, applied to the mantissa value `v`. -/
def scanExp (v : ℚ) (t : List Char) : Option (ℚ × List Char) :=
  let esg := scanSign t
  let e := takeDigits esg.2
  if e.1.isEmpty then none
  else some (applyExp v esg.1 (digitsVal e.1), e.2)

/-- Embedding of the `%f` verb of `fmt.Sscanf`: optional sign, decimal
digits with an optional fraction and an optional exponent; at least one
digit must appear in the mantissa, and an `e` must be followed by
digits. The value is the exact rational of the decimal text. -/
def scanFloat (l : List Char) : Option (ℚ × List Char) :=
  let s := skipSpaces l
  let sg := scanSign s
  let d := takeDigits sg.2
  let fr : Option (List Char) × List Char :=
    match d.2 with
    | '.' :: t =>
      let f := takeDigits t
      (some f.1, f.2)
    | r => (none, r)
  if d.1.isEmpty ∧ (fr.1.getD []).isEmpty then none
  else
    let m := mantissaVal d.1 (fr.1.getD [])
    let v := if sg.1 then Rat.neg m else m
    match fr.2 with
    | 'e' :: t => scanExp v t
    | 'E' :: t => scanExp v t
    | r => some (v, r)

/-- Match the literal characters of the format string exactly. -/
def scanLit : List Char → List Char → Option (List Char)
  | [], s => some s
  | _ :: _, [] => none
  | c :: cs, d :: ds => if c = d then scanLit cs ds else none

/-- One `literal %d` step of the format: match the literal, scan an int. -/
def scanIntField (lit : String) (s : List Char) : Option (Int × List Char) := do
  let s ← scanLit lit.data s
  scanInt s

/-- One `literal %f` step of the format: match the literal, scan a float. -/
def scanFloatField (lit : String) (s : List Char) : Option (ℚ × List Char) := do
  let s ← scanLit lit.data s
  scanFloat s

/-- Fields 1-4 of the `newState` format: `pitch:%d;roll:%d;yaw:%d;vgx:%d`. -/
def scanFields1 (s : List Char) : Option (Int × Int × Int × Int × List Char) := do
  let (pitch, s) ← scanIntField "pitch:" s
  let (roll, s) ← scanIntField ";roll:" s
  let (yaw, s) ← scanIntField ";yaw:" s
  let (vgx, s) ← scanIntField ";vgx:" s
  pure (pitch, roll, yaw, vgx, s)

/-- Fields 5-8 of the `newState` format: `;vgy:%d;vgz:%d;templ:%d;temph:%d`. -/
def scanFields2 (s : List Char) : Option (Int × Int × Int × Int × List Char) := do
  let (vgy, s) ← scanIntField ";vgy:" s
  let (vgz, s) ← scanIntField ";vgz:" s
  let (templ, s) ← scanIntField ";templ:" s
  let (temph, s) ← scanIntField ";temph:" s
  pure (vgy, vgz, templ, temph, s)

/-- Fields 9-12 of the `newState` format: `;tof:%d;h:%d;bat:%d;baro:%f`. -/
def scanFields3 (s : List Char) : Option (Int × Int × Int × ℚ × List Char) := do
  let (tof, s) ← scanIntField ";tof:" s
  let (h, s) ← scanIntField ";h:" s
  let (bat, s) ← scanIntField ";bat:" s
  let (baro, s) ← scanFloatField ";baro:" s
  pure (tof, h, bat, baro, s)

/-- Fields 13-16 of the `newState` format plus the closing `;`:
`;time:%d;agx:%f;agy:%f;agz:%f;`. -/
def scanFields4 (s : List Char) : Option (Int × ℚ × ℚ × ℚ × List Char) := do
  let (tim, s) ← scanIntField ";time:" s
  let (agx, s) ← scanFloatField ";agx:" s
  let (agy, s) ← scanFloatField ";agy:" s
  let (agz, s) ← scanFloatField ";agz:" s
  let s ← scanLit ";".data s
  pure (tim, agx, agy, agz, s)

/-- The `fmt.Sscanf` call of `newState` over its fixed format
`pitch:%d;roll:%d;yaw:%d;vgx:%d;vgy:%d;vgz:%d;templ:%d;temph:%d;tof:%d;h:%d;bat:%d;baro:%f;time:%d;agx:%f;agy:%f;agz:%f;`:
all sixteen fields must scan in order or the whole scan fails; input
after the final `;` is ignored, as `Sscanf` ignores trailing input. -/
def sscanfState (s : List Char) : Option State := do
  let (pitch, roll, yaw, vgx, s) ← scanFields1 s
  let (vgy, vgz, templ, temph, s) ← scanFields2 s
  let (tof, h, bat, baro, s) ← scanFields3 s
  let (tim, agx, agy, agz, _) ← scanFields4 s
  pure
    { Acceleration := { X := agx, Y := agy, Z := agz }
      Attitude := { Pitch := pitch, Roll := roll, Yaw := yaw }
      Barometer := baro
      Battery := bat
      FlightDistance := tof
      FlightTime := tim
      Height := h
      HighestTemperature := temph
      LowestTemperature := templ
      Speed := { X := vgx, Y := vgy, Z := vgz } }

/-- `newState` (state.go): wraps the scan; a failed or short scan is an
error (`scanf failed` / `scanf only parsed %d items`), a full scan of
all sixteen fields yields the `State`. -/
def newState (i : String) : Except String State :=
  match sscanfState i.data with
  | none => .error "astitello: scanf failed"
  | some s => .ok s

/-! ## Telemetry read loop: `readState` (drone.go) -/

/-- `bytes.TrimSpace` applied to the received datagram: drop leading and
trailing whitespace. -/
def bytesTrimSpace (s : String) : String :=
  ⟨(((s.data.dropWhile Char.isWhitespace).reverse.dropWhile Char.isWhitespace).reverse)⟩

/-- Outcome of one iteration of a read loop: exit the loop or go on. -/
inductive LoopOutcome where
  | exits
  | continues
deriving DecidableEq, Repr

/-- One iteration of the body of `readState` (drone.go): if the context
is cancelled the loop exits; a read error is logged and the loop
continues; otherwise the datagram is trimmed and parsed with `newState`,
a parse error is logged and the loop continues with the snapshot
untouched, and a successful parse replaces the snapshot and dispatches
one `state` event carrying it. Returns the loop outcome, the snapshot
after the iteration, and the list of dispatched `state` events. -/
def readStateBody (prev : State) (ctxErr : Bool) (read : Except String String) :
    LoopOutcome × State × List State :=
  if ctxErr then (.exits, prev, [])
  else
    match read with
    | .error _ => (.continues, prev, [])
    | .ok dgram =>
      match newState (bytesTrimSpace dgram) with
      | .error _ => (.continues, prev, [])
      | .ok s => (.continues, s, [s])

/-! ## Video read loop: `readVideo` (drone.go) -/

/-- The accumulation state of `readVideo`: the buffer `buf` and the
tracked `bufLength`. -/
structure VideoState where
  buf : List Nat
  bufLength : Nat
deriving DecidableEq, Repr

/-- One datagram-processing step of `readVideo` (drone.go), given a
successfully read payload `b`: append `b` to the buffer; if the payload
length is exactly 1460 the packet is not over and nothing is published;
otherwise publish a copy of `buf[:bufLength]` as one `video.packet`
event and reset the buffer. Returns the new state and the published
packet, if any. -/
def readVideoBody (st : VideoState) (b : List Nat) : VideoState × Option (List Nat) :=
  let buf := st.buf ++ b
  let bufLength := st.bufLength + b.length
  if b.length = 1460 then (⟨buf, bufLength⟩, none)
  else (⟨[], 0⟩, some (buf.take bufLength))

/-- Run `readVideo` over a sequence of successfully read payloads,
collecting every published `video.packet` buffer in order. -/
def readVideoRun (st : VideoState) : List (List Nat) → VideoState × List (List Nat)
  | [] => (st, [])
  | b :: bs =>
    let step := readVideoBody st b
    let rest := readVideoRun step.1 bs
    (rest.1, step.2.toList ++ rest.2)

/-! ## Command sequencer: `cmd`, `priorityCmd`, `sendCmd` (drone.go) -/

/-- A reply handler (`respHandler`): given the raw reply text, returns
an error message on failure, plus the names of the events it dispatches. -/
def RespHandler := String → Option String × List String

/-- `defaultRespHandler` (drone.go): any reply other than `ok` is an
invalid response error; no event is dispatched. -/
def defaultRespHandler : RespHandler := fun resp =>
  (if resp = "ok" then none else some ("astitello: invalid response: " ++ resp), [])

/-- `respHandlerWithEvent` (drone.go): run `defaultRespHandler`; on
success additionally dispatch the named event. -/
def respHandlerWithEvent (name : String) : RespHandler := fun resp =>
  match defaultRespHandler resp with
  | (some e, _) => (some e, [])
  | (none, _) => (none, [name])

/-- The `cmd` record of drone.go: canceller flag, command text, optional
reply handler, timeout (nanoseconds, as Go `time.Duration`). -/
structure Cmd where
  canceller : Bool := false
  cmd : String
  h : Option RespHandler := none
  timeout : Nat

/-- An entry of the in-flight set `d.cmds`. The Go set is keyed by the
`*cmd` pointer; the pointer identity is modelled by the `id` field. -/
structure InFlight where
  id : Nat
  c : Cmd

/-- The loop body of `priorityCmd` over the in-flight set, with its two
early exits: any in-flight canceller, or an in-flight `takeoff` while
the candidate is `land`, makes the candidate non-priority. -/
def priorityLoop (c : Cmd) : List InFlight → Bool
  | [] => true
  | p :: l =>
    if p.c.canceller then false
    else if c.cmd = "land" ∧ p.c.cmd = "takeoff" then false
    else priorityLoop c l

/-- `priorityCmd` (drone.go): a command runs as a priority command iff it
is a canceller and the in-flight scan finds neither another canceller
nor (for a `land` command) an in-flight `takeoff`. -/
def priorityCmd (c : Cmd) (cmds : List InFlight) : Bool :=
  if c.canceller then priorityLoop c cmds else false

/-- What `d.rc.Wait()` observes when it wakes: a genuine reply (local
context still alive), the command timeout (`DeadlineExceeded`), or the
global cancellation (`Canceled`). -/
inductive WaitOutcome where
  | reply
  | deadline
  | cancelled
deriving DecidableEq, Repr

/-- The environment of one `sendCmd` call: whether the command socket
exists, whether the drone context is already done at the pre-lock check,
whether the socket write succeeds, what the wait observes, and the last
reply text `d.lr` at handler-invocation time. -/
structure SendEnv where
  connected : Bool
  ctxErr : Bool
  writeOk : Bool
  wait : WaitOutcome
  lr : String

/-- The errors `sendCmd` can return. -/
inductive SendErr where
  | notConnected
  | cancelled
  | writeFailed
  | deadlineExceeded
  | handlerFailed (msg : String)
deriving DecidableEq, Repr

/-- The observable outcome of one `sendCmd` call: the returned error (if
any), whether the sequencing lock `d.msc` was acquired, whether a socket
write was attempted, whether the call waited on the reply signal, the
in-flight set after the call returns, and the events dispatched by the
reply handler. -/
structure SendRes where
  err : Option SendErr
  acquiredLock : Bool
  writeAttempted : Bool
  waited : Bool
  cmds : List InFlight
  events : List String

/-- `sendCmd` (drone.go). Control flow of the source, in order: return
`ErrNotConnected` when the command socket is nil; compute the priority
decision over the current in-flight set; add the command to the set and
defer its removal (the removal therefore happens on every later return
path); when not priority, return the context error if the context is
done, else acquire the sequencing lock; write the command text, failing
with a write error; return immediately when there is no reply handler;
otherwise wait on the reply signal, return `DeadlineExceeded` or
`Canceled` when the local context is done, and otherwise invoke the
handler on the last reply `d.lr`. -/
def sendCmd (env : SendEnv) (cmds0 : List InFlight) (id : Nat) (c : Cmd) : SendRes :=
  if env.connected = false then
    { err := some .notConnected, acquiredLock := false, writeAttempted := false,
      waited := false, cmds := cmds0, events := [] }
  else
    let priority := priorityCmd c cmds0
    let cmds1 := (cmds0 ++ [({ id := id, c := c } : InFlight)]).filter (fun p => p.id ≠ id)
    if priority = false ∧ env.ctxErr = true then
      { err := some .cancelled, acquiredLock := false, writeAttempted := false,
        waited := false, cmds := cmds1, events := [] }
    else if env.writeOk = false then
      { err := some .writeFailed, acquiredLock := !priority, writeAttempted := true,
        waited := false, cmds := cmds1, events := [] }
    else
      match c.h with
      | none =>
        { err := none, acquiredLock := !priority, writeAttempted := true,
          waited := false, cmds := cmds1, events := [] }
      | some h =>
        match env.wait with
        | .deadline =>
          { err := some .deadlineExceeded, acquiredLock := !priority, writeAttempted := true,
            waited := true, cmds := cmds1, events := [] }
        | .cancelled =>
          { err := some .cancelled, acquiredLock := !priority, writeAttempted := true,
            waited := true, cmds := cmds1, events := [] }
        | .reply =>
          match h env.lr with
          | (some msg, evs) =>
            { err := some (.handlerFailed msg), acquiredLock := !priority, writeAttempted := true,
              waited := true, cmds := cmds1, events := evs }
          | (none, evs) =>
            { err := none, acquiredLock := !priority, writeAttempted := true,
              waited := true, cmds := cmds1, events := evs }

/-- `defaultTimeout` (drone.go): 5 seconds, in nanoseconds. -/
def defaultTimeout : Nat := 5000000000

/-- The command built by `Emergency()` (drone.go): canceller, text
`emergency`, no handler, default timeout. -/
def emergencyCmd : Cmd :=
  { canceller := true, cmd := "emergency", h := none, timeout := defaultTimeout }

/-- The command built by `TakeOff()` (drone.go): not a canceller, text
`takeoff`, handler dispatching the `take.off` event, 20s timeout. -/
def takeoffCmd : Cmd :=
  { cmd := "takeoff", h := some (respHandlerWithEvent "take.off"), timeout := 20000000000 }

/-- The command built by `Land()` (drone.go): canceller, text `land`,
handler dispatching the `land` event, 20s timeout. -/
def landCmd : Cmd :=
  { canceller := true, cmd := "land", h := some (respHandlerWithEvent "land"),
    timeout := 20000000000 }

/-! ## Lifecycle: `Start` and `Close` (drone.go) -/

/-- The lifecycle-relevant state of a `Drone`: whether the start
`sync.Once` (`d.oo`) and the close `sync.Once` (`d.ol`) have fired,
whether the context is alive, and which sockets are open. -/
structure Life where
  ooUsed : Bool
  olUsed : Bool
  ctxLive : Bool
  stateConn : Bool
  videoConn : Bool
  cmdConn : Bool
deriving DecidableEq, Repr

/-- The `Drone` returned by `New()`: both onces fresh, nothing open. -/
def newLife : Life :=
  { ooUsed := false, olUsed := false, ctxLive := false,
    stateConn := false, videoConn := false, cmdConn := false }

/-- Outcomes of the fallible steps of `Start()`: `handleState`
(listen on the state socket), `handleVideo` (listen on the video
socket), the dial of `handleCmds`, and the `command` handshake sent at
the end of `handleCmds`. -/
structure StartEnv where
  stateOk : Bool
  videoOk : Bool
  dialOk : Bool
  commandOk : Bool
deriving DecidableEq, Repr

/-- The errors `Start()` can return, by failing step. -/
inductive StartErr where
  | handlingStateFailed
  | handlingVideoFailed
  | handlingCommandsFailed
deriving DecidableEq, Repr

/-- The outcome of one `Start()` call: the returned error, whether the
`sync.Once` body actually ran, and the resulting lifecycle state. -/
structure StartRes where
  err : Option StartErr
  ran : Bool
  st : Life
deriving DecidableEq, Repr

/-- `Start()` (drone.go): the whole body runs inside `d.oo.Do`, so a
second call while `d.oo` has already fired does nothing and returns nil.
The body creates a fresh context, resets the close once `d.ol`, starts
the eventer, then runs `handleState`, `handleVideo` and `handleCmds` in
order, returning the first failure. The `d.oo` once is consumed whether
or not a step fails. -/
def Start (st : Life) (env : StartEnv) : StartRes :=
  if st.ooUsed then { err := none, ran := false, st := st }
  else
    let st1 : Life := { st with ooUsed := true, olUsed := false, ctxLive := true }
    if env.stateOk = false then
      { err := some .handlingStateFailed, ran := true, st := st1 }
    else
      let st2 : Life := { st1 with stateConn := true }
      if env.videoOk = false then
        { err := some .handlingVideoFailed, ran := true, st := st2 }
      else
        let st3 : Life := { st2 with videoConn := true }
        if env.dialOk = false then
          { err := some .handlingCommandsFailed, ran := true, st := st3 }
        else
          let st4 : Life := { st3 with cmdConn := true }
          if env.commandOk = false then
            { err := some .handlingCommandsFailed, ran := true, st := st4 }
          else { err := none, ran := true, st := st4 }

/-- `Close()` (drone.go): the whole body runs inside `d.ol.Do`, so it is
a no-op once `d.ol` has fired. The body cancels the context, resets the
start once `d.oo` to a fresh one, stops and resets the eventer, clears
the in-flight set and closes every open socket. -/
def Close (st : Life) : Life :=
  if st.olUsed then st
  else
    { ooUsed := false, olUsed := true, ctxLive := false,
      stateConn := false, videoConn := false, cmdConn := false }

/-! ## Theorems -/

/-- C4: parsing the telemetry line
`pitch:8;roll:9;yaw:10;vgx:11;vgy:12;vgz:13;templ:14;temph:15;tof:16;h:17;bat:18;baro:19.1;time:20;agx:21.1;agy:22.1;agz:23.1;`
with `newState` succeeds and yields the `State` with Attitude (8,9,10),
Speed (11,12,13), LowestTemperature 14, HighestTemperature 15,
FlightDistance 16, Height 17, Battery 18, Barometer 19.1 (= 191/10),
FlightTime 20 and Acceleration (21.1, 22.1, 23.1). -/
theorem C4_newState_example :
    newState "pitch:8;roll:9;yaw:10;vgx:11;vgy:12;vgz:13;templ:14;temph:15;tof:16;h:17;bat:18;baro:19.1;time:20;agx:21.1;agy:22.1;agz:23.1;" =
      .ok { Acceleration := { X := mkRat 211 10, Y := mkRat 221 10, Z := mkRat 231 10 },
            Attitude := { Pitch := 8, Roll := 9, Yaw := 10 },
            Barometer := mkRat 191 10,
            Battery := 18,
            FlightDistance := 16,
            FlightTime := 20,
            Height := 17,
            HighestTemperature := 15,
            LowestTemperature := 14,
            Speed := { X := 11, Y := 12, Z := 13 } } := by
  have h : sscanfState "pitch:8;roll:9;yaw:10;vgx:11;vgy:12;vgz:13;templ:14;temph:15;tof:16;h:17;bat:18;baro:19.1;time:20;agx:21.1;agy:22.1;agz:23.1;".data =
      some { Acceleration := { X := mkRat 211 10, Y := mkRat 221 10, Z := mkRat 231 10 },
             Attitude := { Pitch := 8, Roll := 9, Yaw := 10 },
             Barometer := mkRat 191 10,
             Battery := 18,
             FlightDistance := 16,
             FlightTime := 20,
             Height := 17,
             HighestTemperature := 15,
             LowestTemperature := 14,
             Speed := { X := 11, Y := 12, Z := 13 } } := by decide
  simp [newState, h]

/-- C5: on a telemetry datagram whose (trimmed) text does not scan as
the full 16-field schema, `newState` returns an error, and the
`readState` iteration keeps the previous snapshot, dispatches no
`state` event, and continues the loop. -/
theorem C5_malformed_drops_frame (prev : State) (dgram : String)
    (h : sscanfState (bytesTrimSpace dgram).data = none) :
    newState (bytesTrimSpace dgram) = .error "astitello: scanf failed" ∧
    readStateBody prev false (.ok dgram) = (.continues, prev, []) := by
  have hn : newState (bytesTrimSpace dgram) = .error "astitello: scanf failed" := by
    simp [newState, h]
  exact ⟨hn, by simp [readStateBody, hn]⟩

/-- C5 witness: the malformed datagram `foo` leaves a concrete previous
snapshot untouched. -/
theorem C5_malformed_drops_frame_witness :
    newState (bytesTrimSpace "foo") = .error "astitello: scanf failed" ∧
    readStateBody
      { Acceleration := { X := 0, Y := 0, Z := 0 },
        Attitude := { Pitch := 0, Roll := 0, Yaw := 0 },
        Barometer := 0, Battery := 0, FlightDistance := 0, FlightTime := 0,
        Height := 0, HighestTemperature := 0, LowestTemperature := 0,
        Speed := { X := 0, Y := 0, Z := 0 } } false (.ok "foo") =
      (.continues,
       { Acceleration := { X := 0, Y := 0, Z := 0 },
         Attitude := { Pitch := 0, Roll := 0, Yaw := 0 },
         Barometer := 0, Battery := 0, FlightDistance := 0, FlightTime := 0,
         Height := 0, HighestTemperature := 0, LowestTemperature := 0,
         Speed := { X := 0, Y := 0, Z := 0 } }, []) :=
  C5_malformed_drops_frame _ "foo" (by decide)

/-- Helper for the video claims: starting from a buffer whose tracked
length is exact, a run of full (1460-byte) fragments followed by one
non-full fragment publishes exactly the concatenation and resets the
buffer. -/
theorem readVideoRun_full_then_last (ps : List (List Nat))
    (h : ∀ p ∈ ps, p.length = 1460) (buf : List Nat) (q : List Nat)
    (hq : q.length ≠ 1460) :
    readVideoRun ⟨buf, buf.length⟩ (ps ++ [q]) = (⟨[], 0⟩, [buf ++ ps.flatten ++ q]) := by
  induction ps generalizing buf with
  | nil =>
    simp only [List.nil_append, readVideoRun, readVideoBody, List.length_append, hq, if_false]
    simp [List.take_of_length_le]
  | cons p ps ih =>
    have hp : p.length = 1460 := h p (List.mem_cons_self p ps)
    have hrest : ∀ r ∈ ps, r.length = 1460 := fun r hr => h r (List.mem_cons_of_mem p hr)
    have hstep : readVideoBody ⟨buf, buf.length⟩ p = (⟨buf ++ p, (buf ++ p).length⟩, none) := by
      simp [readVideoBody, hp, List.length_append]
    calc readVideoRun ⟨buf, buf.length⟩ ((p :: ps) ++ [q])
        = readVideoRun ⟨buf ++ p, (buf ++ p).length⟩ (ps ++ [q]) := by
          simp [readVideoRun, hstep]
      _ = (⟨[], 0⟩, [(buf ++ p) ++ ps.flatten ++ q]) := ih hrest (buf ++ p)
      _ = (⟨[], 0⟩, [buf ++ (p :: ps).flatten ++ q]) := by
          simp [List.flatten_cons, List.append_assoc]

/-- C6: feeding the video loop, from an empty buffer, zero or more
payloads of exactly 1460 bytes followed by one payload strictly shorter
than 1460 bytes publishes exactly one `video.packet` buffer equal to the
concatenation of all payloads in arrival order, and resets the
accumulation buffer to empty. -/
theorem C6_video_reassembly (ps : List (List Nat))
    (h : ∀ p ∈ ps, p.length = 1460) (q : List Nat) (hq : q.length < 1460) :
    readVideoRun ⟨[], 0⟩ (ps ++ [q]) = (⟨[], 0⟩, [ps.flatten ++ q]) := by
  have := readVideoRun_full_then_last ps h [] q (Nat.ne_of_lt hq)
  simpa using this

/-- C6 witness: one full 1460-byte fragment then a 3-byte fragment yield
the single concatenated frame. -/
theorem C6_video_reassembly_witness :
    readVideoRun ⟨[], 0⟩ ([List.replicate 1460 0] ++ [[1, 2, 3]]) =
      (⟨[], 0⟩, [List.flatten [List.replicate 1460 0] ++ [1, 2, 3]]) :=
  C6_video_reassembly [List.replicate 1460 0]
    (by
      intro p hp
      rw [List.mem_singleton.mp hp]
      exact List.length_replicate 1460 0)
    [1, 2, 3] (by decide)

/-- C10: in the video loop, any datagram whose payload length differs
from 1460 — including lengths strictly greater than 1460, which a read
of up to 2048 bytes can return — terminates the current frame and
triggers publication; only a payload of exactly 1460 bytes continues
accumulation. Hence full fragments followed by a final fragment of any
length other than 1460 (shorter not required) publish one concatenated
frame. -/
theorem C10_non1460_terminates_frame (ps : List (List Nat))
    (h : ∀ p ∈ ps, p.length = 1460) (q : List Nat) (hq : q.length ≠ 1460) :
    readVideoRun ⟨[], 0⟩ (ps ++ [q]) = (⟨[], 0⟩, [ps.flatten ++ q]) ∧
    (∀ st b, ((readVideoBody st b).2 = none ↔ b.length = 1460)) := by
  constructor
  · have := readVideoRun_full_then_last ps h [] q hq
    simpa using this
  · intro st b
    by_cases hb : b.length = 1460 <;> simp [readVideoBody, hb]

/-- C10 witness: a single oversized 1461-byte datagram is published on
its own as a frame. -/
theorem C10_non1460_terminates_frame_witness :
    readVideoRun ⟨[], 0⟩ ([] ++ [List.replicate 1461 7]) =
      (⟨[], 0⟩, [List.flatten [] ++ List.replicate 1461 7]) ∧
    (∀ st b, ((readVideoBody st b).2 = none ↔ b.length = 1460)) :=
  C10_non1460_terminates_frame []
    (by intro p hp; cases hp)
    (List.replicate 1461 7)
    (by rw [List.length_replicate]; decide)

/-- The scan of `priorityCmd` is order-independent: it grants priority
iff no in-flight entry is a canceller and none is a `takeoff` while the
candidate is `land`. -/
theorem priorityLoop_eq_true_iff (c : Cmd) (l : List InFlight) :
    priorityLoop c l = true ↔
      ∀ p ∈ l, p.c.canceller = false ∧ ¬(c.cmd = "land" ∧ p.c.cmd = "takeoff") := by
  induction l with
  | nil => simp [priorityLoop]
  | cons p l ih =>
    by_cases h1 : p.c.canceller = true
    · simp [priorityLoop, h1]
    · have h1f : p.c.canceller = false := by
        cases hb : p.c.canceller
        · rfl
        · exact absurd hb h1
      by_cases h2 : c.cmd = "land" ∧ p.c.cmd = "takeoff"
      · simp [priorityLoop, h1, h2]
      · have heq : priorityLoop c (p :: l) = priorityLoop c l := by
          simp only [priorityLoop]
          rw [if_neg h1, if_neg h2]
        rw [heq, ih]
        constructor
        · intro h p2 hp2
          rcases List.mem_cons.mp hp2 with hpe | hmem
          · subst hpe
            exact ⟨h1f, h2⟩
          · exact h p2 hmem
        · intro h p2 hp2
          exact h p2 (List.mem_cons_of_mem p hp2)

/-- A call that fails the priority check, on a live context, acquires
the sequencing lock. -/
theorem sendCmd_nonpriority_locks (env : SendEnv) (cmds : List InFlight) (id : Nat)
    (c : Cmd) (hconn : env.connected = true) (hctx : env.ctxErr = false)
    (hpri : priorityCmd c cmds = false) :
    (sendCmd env cmds id c).acquiredLock = true := by
  unfold sendCmd
  simp only [hconn, hpri, hctx, Bool.true_eq_false, if_false, Bool.false_eq_true,
    false_and, and_false, Bool.not_false]
  split
  · rfl
  · split
    · rfl
    · split <;> try rfl
      split <;> rfl

/-- A call that passes the priority check never touches the sequencing
lock and always reaches the socket write. -/
theorem sendCmd_priority_skips_lock (env : SendEnv) (cmds : List InFlight) (id : Nat)
    (c : Cmd) (hconn : env.connected = true) (hpri : priorityCmd c cmds = true) :
    (sendCmd env cmds id c).acquiredLock = false ∧
    (sendCmd env cmds id c).writeAttempted = true := by
  unfold sendCmd
  simp only [hconn, hpri, Bool.true_eq_false, if_false, true_and, false_and,
    Bool.not_true]
  split
  · exact ⟨rfl, rfl⟩
  · split
    · exact ⟨rfl, rfl⟩
    · split <;> try exact ⟨rfl, rfl⟩
      split <;> exact ⟨rfl, rfl⟩

/-- C1: whenever the in-flight set contains a `takeoff` command, the
priority decision for the `land` command (a canceller) is negative, so
`sendCmd` for that `land` acquires the sequencing lock like an ordinary
command instead of bypassing it. -/
theorem C1_land_waits_for_takeoff (cmds : List InFlight)
    (htk : ∃ p ∈ cmds, p.c.cmd = "takeoff") (env : SendEnv)
    (hconn : env.connected = true) (hctx : env.ctxErr = false) (id : Nat) :
    priorityCmd landCmd cmds = false ∧
    (sendCmd env cmds id landCmd).acquiredLock = true := by
  obtain ⟨p, hp, hcmd⟩ := htk
  have hpl : priorityLoop landCmd cmds = false := by
    rw [← Bool.not_eq_true, priorityLoop_eq_true_iff]
    intro hall
    exact (hall p hp).2 ⟨rfl, hcmd⟩
  have hpc : priorityCmd landCmd cmds = false := by
    unfold priorityCmd
    rw [if_pos (show landCmd.canceller = true from rfl)]
    exact hpl
  exact ⟨hpc, sendCmd_nonpriority_locks env cmds id landCmd hconn hctx hpc⟩

/-- C1 witness: with a concrete in-flight `takeoff`, the concrete
`land` call takes the lock. -/
theorem C1_land_waits_for_takeoff_witness :
    priorityCmd landCmd [⟨0, takeoffCmd⟩] = false ∧
    (sendCmd ⟨true, false, true, .reply, "ok"⟩ [⟨0, takeoffCmd⟩] 1 landCmd).acquiredLock
      = true :=
  C1_land_waits_for_takeoff [⟨0, takeoffCmd⟩]
    ⟨⟨0, takeoffCmd⟩, List.mem_singleton.mpr rfl, rfl⟩
    ⟨true, false, true, .reply, "ok"⟩ rfl rfl 1

/-- C2: a canceller command sees a positive priority decision whenever
no in-flight command is a canceller and, if the candidate is `land`, no
in-flight command is a `takeoff`; its `sendCmd` call then skips the
sequencing lock and goes straight to the socket write. -/
theorem C2_canceller_priority (cmds : List InFlight)
    (hnc : ∀ p ∈ cmds, p.c.canceller = false) (c : Cmd) (hc : c.canceller = true)
    (hl : c.cmd = "land" → ∀ p ∈ cmds, p.c.cmd ≠ "takeoff") (env : SendEnv)
    (hconn : env.connected = true) (id : Nat) :
    priorityCmd c cmds = true ∧
    (sendCmd env cmds id c).acquiredLock = false ∧
    (sendCmd env cmds id c).writeAttempted = true := by
  have hpl : priorityLoop c cmds = true := by
    rw [priorityLoop_eq_true_iff]
    intro p hp
    exact ⟨hnc p hp, fun h => hl h.1 p hp h.2⟩
  have hpc : priorityCmd c cmds = true := by
    unfold priorityCmd
    simp [hc, hpl]
  exact ⟨hpc, sendCmd_priority_skips_lock env cmds id c hconn hpc⟩

/-- C2 witness: a concrete `emergency` call with one ordinary command in
flight runs as priority and writes without the lock. -/
theorem C2_canceller_priority_witness :
    priorityCmd emergencyCmd [⟨0, takeoffCmd⟩] = true ∧
    (sendCmd ⟨true, false, true, .reply, "ok"⟩ [⟨0, takeoffCmd⟩] 1 emergencyCmd).acquiredLock
      = false ∧
    (sendCmd ⟨true, false, true, .reply, "ok"⟩ [⟨0, takeoffCmd⟩] 1 emergencyCmd).writeAttempted
      = true :=
  C2_canceller_priority [⟨0, takeoffCmd⟩]
    (fun p hp => by rw [List.mem_singleton.mp hp]; rfl)
    emergencyCmd rfl
    (fun h => absurd h (by decide))
    ⟨true, false, true, .reply, "ok"⟩ rfl 1

/-- C7: any `sendCmd` call made while the command socket is nil returns
`ErrNotConnected` without attempting a write, without touching the
sequencing lock, without waiting, without dispatching events and with
the in-flight set unchanged. -/
theorem C7_not_connected (env : SendEnv) (hconn : env.connected = false)
    (cmds : List InFlight) (id : Nat) (c : Cmd) :
    sendCmd env cmds id c =
      { err := some .notConnected, acquiredLock := false, writeAttempted := false,
        waited := false, cmds := cmds, events := [] } := by
  unfold sendCmd
  simp [hconn]

/-- C7 witness: a concrete disconnected call. -/
theorem C7_not_connected_witness :
    sendCmd ⟨false, false, true, .reply, "ok"⟩ [] 0 landCmd =
      { err := some .notConnected, acquiredLock := false, writeAttempted := false,
        waited := false, cmds := [], events := [] } :=
  C7_not_connected ⟨false, false, true, .reply, "ok"⟩ rfl [] 0 landCmd

/-- C8: a command with no reply handler returns nil right after one
successful write, never waits on the reply signal, and its outcome does
not depend on the wait oracle or on any reply text. -/
theorem C8_nil_handler_fire_and_forget (env : SendEnv) (cmds : List InFlight)
    (id : Nat) (c : Cmd) (hh : c.h = none) (hconn : env.connected = true)
    (hctx : env.ctxErr = false) (hw : env.writeOk = true) :
    (sendCmd env cmds id c).err = none ∧
    (sendCmd env cmds id c).writeAttempted = true ∧
    (sendCmd env cmds id c).waited = false ∧
    (∀ w lr, sendCmd { env with wait := w, lr := lr } cmds id c = sendCmd env cmds id c) := by
  unfold sendCmd
  simp only [hconn, hctx, hw, hh, Bool.true_eq_false, if_false, and_false, false_and,
    Bool.false_eq_true]
  exact ⟨trivial, trivial, trivial, fun _ _ => trivial⟩

/-- C8 witness: a concrete `emergency` (nil handler) call succeeds after
its write for both wait oracles. -/
theorem C8_nil_handler_fire_and_forget_witness :
    (sendCmd ⟨true, false, true, .deadline, ""⟩ [] 0 emergencyCmd).err = none ∧
    (sendCmd ⟨true, false, true, .deadline, ""⟩ [] 0 emergencyCmd).writeAttempted = true ∧
    (sendCmd ⟨true, false, true, .deadline, ""⟩ [] 0 emergencyCmd).waited = false ∧
    (∀ w lr, sendCmd ⟨true, false, true, w, lr⟩ [] 0 emergencyCmd =
      sendCmd ⟨true, false, true, .deadline, ""⟩ [] 0 emergencyCmd) :=
  C8_nil_handler_fire_and_forget ⟨true, false, true, .deadline, ""⟩ [] 0 emergencyCmd
    rfl rfl rfl rfl

/-- C9: a `sendCmd` call whose command is fresh (its identity is not in
the in-flight set) leaves the in-flight set it returns with exactly the
entries it started with, on every return path: the deferred delete
always undoes the add. -/
theorem C9_inflight_restored (env : SendEnv) (cmds : List InFlight) (id : Nat)
    (c : Cmd) (hid : ∀ p ∈ cmds, p.id ≠ id) :
    (sendCmd env cmds id c).cmds = cmds := by
  have hfilter : (cmds ++ [({ id := id, c := c } : InFlight)]).filter
      (fun p => p.id ≠ id) = cmds := by
    rw [List.filter_append]
    have h1 : cmds.filter (fun p => p.id ≠ id) = cmds :=
      List.filter_eq_self.mpr (fun p hp => by simp [hid p hp])
    have h2 : ([({ id := id, c := c } : InFlight)]).filter (fun p => p.id ≠ id) = [] := by
      simp
    rw [h1, h2, List.append_nil]
  unfold sendCmd
  split
  · rfl
  · simp only []
    split
    · exact hfilter
    · split
      · exact hfilter
      · split
        · exact hfilter
        · split <;> try exact hfilter
          split <;> exact hfilter

/-- C9 witness: a concrete call removes its own command again. -/
theorem C9_inflight_restored_witness :
    (sendCmd ⟨true, false, true, .reply, "ok"⟩ [⟨0, takeoffCmd⟩] 1 landCmd).cmds =
      [⟨0, takeoffCmd⟩] :=
  C9_inflight_restored ⟨true, false, true, .reply, "ok"⟩ [⟨0, takeoffCmd⟩] 1 landCmd
    (fun p hp => by rw [List.mem_singleton.mp hp]; decide)

/-- A `StartEnv` whose first socket setup step fails. -/
def envStateFails : StartEnv :=
  { stateOk := false, videoOk := true, dialOk := true, commandOk := true }

/-- A `StartEnv` in which every setup step succeeds. -/
def envAllOk : StartEnv :=
  { stateOk := true, videoOk := true, dialOk := true, commandOk := true }

/-- C3 counterexample: on a fresh drone whose state-socket setup fails,
`Start()` returns the error but consumes the start once; the next
`Start()` call is a no-op returning nil instead of re-running the
startup sequence, so the controller is not left in a retryable
not-started state. -/
theorem C3_start_failure_counterexample :
    (Start newLife envStateFails).err = some .handlingStateFailed ∧
    (Start newLife envStateFails).st.ooUsed = true ∧
    (Start (Start newLife envStateFails).st envAllOk).ran = false ∧
    (Start (Start newLife envStateFails).st envAllOk).err = none := by decide

/-- C3 amended: if any socket setup step fails, `Start()` returns that
step's error, but the start once stays consumed: every subsequent
`Start()` is a no-op reporting no error, until `Close()` resets the
once, after which `Start()` runs the startup sequence again. -/
theorem C3_start_failure_latches (st : Life) (env : StartEnv)
    (hfresh : st.ooUsed = false)
    (hfail : env.stateOk = false ∨ env.videoOk = false ∨ env.dialOk = false ∨
      env.commandOk = false) :
    (Start st env).err.isSome = true ∧
    (Start st env).st.ooUsed = true ∧
    (∀ env2, Start (Start st env).st env2 =
      { err := none, ran := false, st := (Start st env).st }) ∧
    (∀ env2, (Start (Close (Start st env).st) env2).ran = true) := by
  obtain ⟨so, vo, dk, co⟩ := env
  cases so <;> cases vo <;> cases dk <;> cases co <;>
    simp_all [Start, Close, hfresh, apply_ite StartRes.ran]

/-- C3 amended witness: the concrete failing start latches and only a
close makes a retry run again. -/
theorem C3_start_failure_latches_witness :
    (Start newLife envStateFails).err.isSome = true ∧
    (Start newLife envStateFails).st.ooUsed = true ∧
    (∀ env2, Start (Start newLife envStateFails).st env2 =
      { err := none, ran := false, st := (Start newLife envStateFails).st }) ∧
    (∀ env2, (Start (Close (Start newLife envStateFails).st) env2).ran = true) :=
  C3_start_failure_latches newLife envStateFails rfl (Or.inl rfl)

end Astitello
